import Mathlib

/-!
# SIRS monitor firmware (`led_control_webserver.c`)

A shallow embedding of the alert pipeline of the firmware: the shared
simulated sensor state, the button task that cycles it, the LED alert task
and the lwIP receive callback that renders the status page.

Conventions of the embedding

* A C `float` is a `CFloat`: NaN, an infinity, or a finite sign/magnitude
  dyadic value `± m * 2 ^ e`.  Every finite IEEE-754 value has this form, and
  all constants of the program (25.0, 38.5, 38.0, 70.0, 120.0, 90.0) are
  exactly representable, so the comparisons of the program are exact.
* C strings and byte buffers are `List Char` (the characters before the
  terminating NUL); every character of the program's page is ASCII.
* Calls into FreeRTOS, lwIP and the Pico SDK are not part of the repository.
  Their results (button level, tick counter, whether a mutex was obtained,
  the result of `tcp_write`) are inputs of the embedded functions, and the
  calls the program makes are recorded as outputs.
* An automatic variable that is read before it is written has an
  indeterminate value; such values are explicit inputs (`StackLocals`).
-/

namespace SirsMonitor

/-! ## C `float` values -/

/-- Value of a C `float`: `fin neg m e` is `(-1)^neg * m * 2^e`. -/
inductive CFloat where
  | nan : CFloat
  | inf (neg : Bool) : CFloat
  | fin (neg : Bool) (m : Nat) (e : Int) : CFloat
  deriving DecidableEq, Repr

namespace CFloat

/-- Signed mantissa of a finite value once both operands of a comparison are
brought to the common exponent `e0` (with `e0 ≤ e`). -/
def scaled (neg : Bool) (m : Nat) (e e0 : Int) : Int :=
  (if neg then -(m : Int) else (m : Int)) * 2 ^ (e - e0).toNat

/-- The C comparison `a > b` on floats (IEEE-754: false when either operand is
NaN; `-0.0` and `0.0` compare equal). -/
def gt : CFloat → CFloat → Bool
  | nan, _ => false
  | _, nan => false
  | inf true, _ => false
  | inf false, inf false => false
  | inf false, _ => true
  | fin _ _ _, inf neg => neg
  | fin na ma ea, fin nb mb eb =>
      decide (scaled nb mb eb (min ea eb) < scaled na ma ea (min ea eb))

/-- A float holding the integer `n`. -/
def ofNat (n : Nat) : CFloat := fin false n 0

/-- A float holding `n / 2`. -/
def ofHalves (n : Nat) : CFloat := fin false n (-1)

end CFloat

/-! ## Constants of the program -/

def LED_GREEN_PIN : Nat := 11
def LED_RED_PIN : Nat := 13
def BUTTON_A_PIN : Nat := 5

/-- The constant `25.0f`. -/
def TEMPERATURA_NORMAL : CFloat := CFloat.ofNat 25
/-- The constant `38.5f`, that is 77 / 2. -/
def TEMPERATURA_ALTA : CFloat := CFloat.ofHalves 77
/-- The constant `38.0f`. -/
def TEMPERATURA_SIRS : CFloat := CFloat.ofNat 38

/-- The constant `70.0f`. -/
def BPM_NORMAL : CFloat := CFloat.ofNat 70
/-- The constant `120.0f`. -/
def BPM_ALTO : CFloat := CFloat.ofNat 120
/-- The constant `90.0f`. -/
def BPM_SIRS : CFloat := CFloat.ofNat 90

def PWM_WRAP_VALUE : Nat := 255

/-! ## Shared sensor state -/

/-- The globals `temp_sim`, `bpm_sim`, `estado` guarded by `sensor_data_mutex`. -/
structure Shared where
  temp_sim : CFloat
  bpm_sim : CFloat
  estado : Int
  deriving DecidableEq, Repr

/-- Initialisers of the three globals. -/
def Shared.init : Shared :=
  { temp_sim := TEMPERATURA_NORMAL, bpm_sim := BPM_NORMAL, estado := 0 }

/-! ## `led_alert_task` -/

/-- The three alert levels of the specification. -/
inductive AlertLevel where
  | normal | warning | critical
  deriving DecidableEq, Repr

/-- The indicator outputs driven by the LED task. -/
structure Leds where
  red : Nat
  green : Nat
  onboard : Bool
  deriving DecidableEq, Repr

/-- Effect of `pwm_set_gpio_level(pin, level)` on the two PWM channels in use. -/
def pwm_set_gpio_level (pin level : Nat) (hw : Leds) : Leds :=
  if pin = LED_RED_PIN then { hw with red := level }
  else if pin = LED_GREEN_PIN then { hw with green := level }
  else hw

/-- Effect of `cyw43_arch_gpio_put(ONBOARD_LED_PIN, v)`. -/
def cyw43_arch_gpio_put (v : Bool) (hw : Leds) : Leds :=
  { hw with onboard := v }

/-- The branch of the `if` chain of `led_alert_task` taken for the locals
`temp`, `hr`. -/
def led_alert_level (temp hr : CFloat) : AlertLevel :=
  let temp_alerta := temp.gt TEMPERATURA_SIRS
  let bpm_alerta := hr.gt BPM_SIRS
  if temp_alerta && bpm_alerta then AlertLevel.critical
  else if temp_alerta || bpm_alerta then AlertLevel.warning
  else AlertLevel.normal

/-- The actuation part of one iteration of `led_alert_task`, for the locals
`temp`, `hr`. -/
def led_alert_actuate (temp hr : CFloat) (hw : Leds) : Leds :=
  let temp_alerta := temp.gt TEMPERATURA_SIRS
  let bpm_alerta := hr.gt BPM_SIRS
  if temp_alerta && bpm_alerta then
    cyw43_arch_gpio_put true
      (pwm_set_gpio_level LED_GREEN_PIN 0
        (pwm_set_gpio_level LED_RED_PIN PWM_WRAP_VALUE hw))
  else if temp_alerta || bpm_alerta then
    cyw43_arch_gpio_put true
      (pwm_set_gpio_level LED_GREEN_PIN (PWM_WRAP_VALUE / 2)
        (pwm_set_gpio_level LED_RED_PIN PWM_WRAP_VALUE hw))
  else
    cyw43_arch_gpio_put false
      (pwm_set_gpio_level LED_GREEN_PIN 0
        (pwm_set_gpio_level LED_RED_PIN 0 hw))

/-- One iteration of the loop of `led_alert_task`.  `locals` are the task's
variables `temp`, `hr` as left by the previous iteration, `take` tells whether
`xSemaphoreTake(sensor_data_mutex, portMAX_DELAY)` returned `pdTRUE`. -/
def led_alert_task (sh : Shared) (take : Bool) (locals : CFloat × CFloat) (hw : Leds) :
    (CFloat × CFloat) × Leds :=
  let locals1 := if take then (sh.temp_sim, sh.bpm_sim) else locals
  (locals1, led_alert_actuate locals1.1 locals1.2 hw)

/-! ## `button_task` -/

/-- Width of `TickType_t` on the target (32-bit ticks). -/
def TICK_MOD : Nat := 2 ^ 32

/-- Unsigned subtraction `a - b` in `TickType_t`. -/
def tickSub (a b : Nat) : Nat := (a + TICK_MOD - b % TICK_MOD) % TICK_MOD

/-- The shared state together with the locals of `button_task` and the text
the task has printed so far. -/
structure ButtonSys where
  shared : Shared
  last_button_state : Bool
  last_press_time : Nat
  console : List String
  deriving DecidableEq, Repr

/-- State at the entry of the loop of `button_task`, with the globals at their
initialisers. -/
def ButtonSys.init : ButtonSys :=
  { shared := Shared.init, last_button_state := true, last_press_time := 0, console := [] }

/-- What one iteration of the loop of `button_task` reads from its environment:
the level returned by `gpio_get(BUTTON_A_PIN)`, the two values returned by
`xTaskGetTickCount()` (in the debounce test, and in the assignment that follows
it), and whether `xSemaphoreTake(sensor_data_mutex, portMAX_DELAY)` returned
`pdTRUE`. -/
structure Poll where
  level : Bool
  tick1 : Nat
  tick2 : Nat
  take : Bool
  deriving DecidableEq, Repr

/-- The body guarded by the mutex in `button_task`: advance `estado` and store
the preset of the new mode.  The `switch` has no `default`. -/
def button_critical_section (s : ButtonSys) : ButtonSys :=
  let estado1 := Int.tmod (s.shared.estado + 1) 4
  if estado1 = 0 then
    { s with shared := { temp_sim := TEMPERATURA_NORMAL, bpm_sim := BPM_NORMAL, estado := estado1 },
             console := s.console ++ ["Simulação: Normal\n"] }
  else if estado1 = 1 then
    { s with shared := { temp_sim := TEMPERATURA_NORMAL, bpm_sim := BPM_ALTO, estado := estado1 },
             console := s.console ++ ["Simulação: Cardíaco Alto\n"] }
  else if estado1 = 2 then
    { s with shared := { temp_sim := TEMPERATURA_ALTA, bpm_sim := BPM_NORMAL, estado := estado1 },
             console := s.console ++ ["Simulação: Temperatura Alta\n"] }
  else if estado1 = 3 then
    { s with shared := { temp_sim := TEMPERATURA_ALTA, bpm_sim := BPM_ALTO, estado := estado1 },
             console := s.console ++ ["Simulação: Ambos Altos (Crítico)\n"] }
  else
    { s with shared := { s.shared with estado := estado1 } }

/-- The test for a falling edge: current sample low, previous sample high. -/
def fallingEdge (s : ButtonSys) (p : Poll) : Bool :=
  p.level == false && s.last_button_state == true

/-- The debounce test `xTaskGetTickCount() - last_press_time > pdMS_TO_TICKS(250)`.
The macro `pdMS_TO_TICKS` and the tick rate it depends on belong to FreeRTOS and
its configuration, which are not part of the repository: `deb` is the value of
`pdMS_TO_TICKS(250)`, which is 250 when one tick lasts one millisecond. -/
def debounceOk (deb : Nat) (s : ButtonSys) (p : Poll) : Bool :=
  decide (deb < tickSub p.tick1 s.last_press_time)

/-- One iteration of the loop of `button_task` (up to the `vTaskDelay`); `deb`
is the value of `pdMS_TO_TICKS(250)`. -/
def button_task (deb : Nat) (s : ButtonSys) (p : Poll) : ButtonSys :=
  let s1 :=
    if fallingEdge s p then
      if debounceOk deb s p then
        let s2 := { s with last_press_time := p.tick2 % TICK_MOD }
        if p.take then button_critical_section s2 else s2
      else s
    else s
  { s1 with last_button_state := p.level }

/-- The loop of `button_task` run over a sequence of polls. -/
def button_run (deb : Nat) (s : ButtonSys) (ps : List Poll) : ButtonSys :=
  ps.foldl (button_task deb) s

/-- An edge is accepted by the debounce test at this poll. -/
def edgeAccepted (deb : Nat) (s : ButtonSys) (p : Poll) : Bool :=
  fallingEdge s p && debounceOk deb s p

/-- Number of polls of a run at which the guarded body was executed (an
accepted edge for which the mutex was obtained). -/
def acceptedCount (deb : Nat) : ButtonSys → List Poll → Nat
  | _, [] => 0
  | s, p :: ps =>
      (if edgeAccepted deb s p && p.take then 1 else 0) + acceptedCount deb (button_task deb s p) ps

/-- The preset `(temp_sim, bpm_sim)` the specification gives for a mode. -/
def preset (mode : Nat) : CFloat × CFloat :=
  match mode with
  | 0 => (TEMPERATURA_NORMAL, BPM_NORMAL)
  | 1 => (TEMPERATURA_NORMAL, BPM_ALTO)
  | 2 => (TEMPERATURA_ALTA, BPM_NORMAL)
  | _ => (TEMPERATURA_ALTA, BPM_ALTO)

/-- The tick readings of a run, in program order. -/
def tickReads (ps : List Poll) : List Nat :=
  ps.flatMap fun p => [p.tick1, p.tick2]

/-- The tick counter never goes back and never wraps during the run. -/
def TicksOrdered (ps : List Poll) : Prop :=
  (tickReads ps).Pairwise (· ≤ ·) ∧ ∀ t ∈ tickReads ps, t < TICK_MOD

/-- The level sampled by the poll before the current one; released (high)
before the first poll. -/
def prevLevel (pre : List Poll) : Bool :=
  match pre.getLast? with
  | some q => q.level
  | none => true

/-! ## C library helpers used by `tcp_server_recv` -/

/-- Output of the conversion `%.<prec>f` for a float argument: the decimal
expansion correctly rounded to `prec` digits (ties to even), as the C library
prints an exactly represented binary value. -/
def fmtFixed (prec : Nat) : CFloat → List Char
  | CFloat.nan => "nan".data
  | CFloat.inf neg => if neg then "-inf".data else "inf".data
  | CFloat.fin neg m e =>
      let num := m * 2 ^ e.toNat * 10 ^ prec
      let den := 2 ^ (-e).toNat
      let q := num / den
      let r := num % den
      let n := if den < 2 * r ∨ (2 * r = den ∧ q % 2 = 1) then q + 1 else q
      let ip := Nat.toDigits 10 (n / 10 ^ prec)
      let fp := Nat.toDigits 10 (n % 10 ^ prec)
      (if neg then ['-'] else []) ++ ip ++
        (if prec = 0 then [] else '.' :: (List.replicate (prec - fp.length) '0' ++ fp))

/-- What `snprintf(buf, size, ...)` leaves in `buf` when the formatted text is
`s`: at most `size - 1` characters. -/
def snprintf (size : Nat) (s : List Char) : List Char := s.take (size - 1)

/-- The C function `strncat(dest, src, n)`: append at most `n` characters. -/
def strncat (dest src : List Char) (n : Nat) : List Char := dest ++ src.take n

/-- The C function `strncmp(a, b, n)`; the end of a list is its NUL. -/
def strncmp : List Char → List Char → Nat → Int
  | _, _, 0 => 0
  | [], [], _ + 1 => 0
  | [], b :: _, _ + 1 => -(b.toNat : Int)
  | a :: _, [], _ + 1 => (a.toNat : Int)
  | a :: as, b :: bs, n + 1 =>
      if a = b then (if a.toNat = 0 then 0 else strncmp as bs n)
      else (a.toNat : Int) - (b.toNat : Int)

/-! ## `tcp_server_recv` -/

/-- The lwIP error code `ERR_OK`. -/
def ERR_OK : Int := 0
/-- The lwIP error code `ERR_MEM`. -/
def ERR_MEM : Int := -1
/-- The lwIP error code `ERR_VAL`. -/
def ERR_VAL : Int := -6
/-- The lwIP error code `ERR_ABRT`. -/
def ERR_ABRT : Int := -13

/-- The calls `tcp_server_recv` makes, in program order.  `pcb` identifies the
protocol control block a call is made on; `printf` keeps the format string. -/
inductive Action where
  | printf (fmt : String) : Action
  | pbuf_free : Action
  | tcp_close (pcb : Nat) : Action
  | tcp_recv_null (pcb : Nat) : Action
  | tcp_write (pcb : Nat) (data : List Char) : Action
  | tcp_output (pcb : Nat) : Action
  deriving DecidableEq, Repr

/-- The automatic variables of the GET branch that are not initialised at
their declaration, with the indeterminate contents they have on entry
(`status_text` as the C string found in the array). -/
structure StackLocals where
  temp_atual : CFloat
  bpm_atual : CFloat
  estado_atual : Int
  status_text : List Char
  deriving DecidableEq, Repr

/-- Lines 238-243: copy the shared state into the locals when
`xSemaphoreTake(sensor_data_mutex, pdMS_TO_TICKS(100))` returned `pdTRUE`
(`take`); there is no `else`. -/
def read_snapshot (sh : Shared) (take : Bool) (stack : StackLocals) : StackLocals :=
  if take then
    { stack with temp_atual := sh.temp_sim, bpm_atual := sh.bpm_sim, estado_atual := sh.estado }
  else stack

/-- Lines 246-257: the contents of `status_text` after the first `if` chain;
the chain has no final `else`. -/
def status_text (l : StackLocals) : List Char :=
  let temp_alerta := l.temp_atual.gt TEMPERATURA_SIRS
  let bpm_alerta := l.bpm_atual.gt BPM_SIRS
  if temp_alerta && bpm_alerta then "CRiTICO!".data
  else if bpm_alerta then "Alerta Cardiaco".data
  else if temp_alerta then "Alerta Temperatura".data
  else if l.estado_atual ≠ -1 then "Normal".data
  else l.status_text

/-- The part of the format string of line 262-282 that precedes the first
conversion: the response headers and the page up to the temperature. -/
def HTML_PROLOGUE : String :=
  "HTTP/1.1 200 OK\r\n" ++
  "Content-Type: text/html\r\n" ++
  "Connection: close\r\n\r\n" ++
  "<!DOCTYPE html>" ++
  "<html><head><title>SIRS Monitor</title>" ++
  "<meta http-equiv=\x27refresh\x27 content=\x275\x27>" ++
  "<style>" ++
  "body\x7bfont-family:Arial,sans-serif;background-color:#282c34;color:#abb2bf;text-align:center;margin:0;padding:20px;\x7d" ++
  "h1\x7bcolor:#61afef;font-size:2em;margin-bottom:10px;\x7d" ++
  ".container\x7bbackground-color:#353a40;padding:15px;border-radius:8px;box-shadow:0 4px 8px rgba(0,0,0,0.2);display:inline-block;\x7d" ++
  "p\x7bfont-size:1.2em;margin:8px 0;\x7d" ++
  ".status\x7bfont-weight:bold;\x7d" ++
  ".normal\x7bcolor:#98c379;\x7d" ++
  ".warning\x7bcolor:#e5c07b;\x7d" ++
  ".critical\x7bcolor:#e06c75;\x7d" ++
  "</style></head>" ++
  "<body><div class=\x27container\x27>" ++
  "<h1>Monitoramento SIRS</h1>" ++
  "<p>Temperatura: "

/-- Lines 262-283: `html_buffer` after the `snprintf` with the conversions
`%.1f` of `temp_atual` and `%.0f` of `bpm_atual`. -/
def html_head (temp_atual bpm_atual : CFloat) : List Char :=
  snprintf 1024
    (HTML_PROLOGUE.data ++ fmtFixed 1 temp_atual ++ " &deg;C</p>".data ++
      "<p>Batimentos: ".data ++ fmtFixed 0 bpm_atual ++ " bpm</p>".data)

/-- Lines 286-295: the status paragraph, `text` being the contents of
`status_text`. -/
def status_html (l : StackLocals) (text : List Char) : List Char :=
  let temp_alerta := l.temp_atual.gt TEMPERATURA_SIRS
  let bpm_alerta := l.bpm_atual.gt BPM_SIRS
  if temp_alerta && bpm_alerta then
    snprintf 100 ("<p class=\x27status critical\x27>Status: ".data ++ text ++ "</p>".data)
  else if temp_alerta || bpm_alerta then
    snprintf 100 ("<p class=\x27status warning\x27>Status: ".data ++ text ++ "</p>".data)
  else if l.estado_atual ≠ -1 then
    snprintf 100 ("<p class=\x27status normal\x27>Status: ".data ++ text ++ "</p>".data)
  else
    snprintf 100 ("<p class=\x27status critical\x27>Status: ".data ++ text ++ "</p>".data)

/-- Lines 246-297: the contents of `html_buffer` when it is written, for the
locals `l` as they are after the snapshot. -/
def render_page (l : StackLocals) : List Char :=
  let text := status_text l
  let buf0 := html_head l.temp_atual l.bpm_atual
  let buf1 := strncat buf0 (status_html l text) (1024 - buf0.length - 1)
  strncat buf1 "</div></body></html>".data (1024 - buf1.length - 1)

/-- The callback `tcp_server_recv(arg, tpcb, p, err)`.  `p` is the payload of
the pbuf (`none` for `NULL`), `sh` the shared state at the time of the call,
`take` whether the 100 ms wait for the mutex succeeded, `stack` the
indeterminate initial contents of the locals and `write_err` the value
returned by `tcp_write`.  The result is the list of calls made and the value
returned. -/
def tcp_server_recv (tpcb : Nat) (p : Option (List Char)) (err : Int)
    (sh : Shared) (take : Bool) (stack : StackLocals) (write_err : Int) : List Action × Int :=
  if err ≠ ERR_OK ∧ err ≠ ERR_ABRT then
    (Action.printf "Erro na recepção TCP: %d\n" ::
      (match p with
       | some _ => [Action.pbuf_free]
       | none => []), err)
  else
    match p with
    | none =>
        ([Action.printf "Conexão TCP fechada pelo cliente.\n",
          Action.tcp_close tpcb, Action.tcp_recv_null tpcb], ERR_OK)
    | some payload =>
        let get :=
          if 3 ≤ payload.length ∧ strncmp payload "GET".data 3 = 0 then
            let html_buffer := render_page (read_snapshot sh take stack)
            [Action.printf "HTML enviado:\n%s\n", Action.tcp_write tpcb html_buffer] ++
              (if write_err ≠ ERR_OK then
                [Action.printf "Erro ao escrever para TCP: %d\n",
                 Action.tcp_close tpcb, Action.tcp_recv_null tpcb]
               else [Action.tcp_output tpcb])
          else []
        (get ++ [Action.pbuf_free], ERR_OK)

/-! ## Helpers for stating properties of pages -/

/-- Whether `pat` is an initial segment of `s`. -/
def startsWith : List Char → List Char → Bool
  | [], _ => true
  | _ :: _, [] => false
  | a :: as, b :: bs => a == b && startsWith as bs

/-- Whether `pat` occurs in `s`. -/
def containsSub (pat : List Char) : List Char → Bool
  | [] => startsWith pat []
  | c :: cs => startsWith pat (c :: cs) || containsSub pat cs

/-- Number of positions of `s` at which `pat` occurs. -/
def countSub (pat : List Char) : List Char → Nat
  | [] => if startsWith pat [] then 1 else 0
  | c :: cs => (if startsWith pat (c :: cs) then 1 else 0) + countSub pat cs

/-- Whether `s` ends with `pat`. -/
def endsWith (pat s : List Char) : Bool :=
  startsWith pat.reverse s.reverse

/-- The CSS class name of an alert level. -/
def AlertLevel.cssClass : AlertLevel → List Char
  | AlertLevel.normal => "normal".data
  | AlertLevel.warning => "warning".data
  | AlertLevel.critical => "critical".data

/-- The locals of the GET branch for a snapshot of the shared state. -/
def StackLocals.ofShared (sh : Shared) (text : List Char) : StackLocals :=
  { temp_atual := sh.temp_sim, bpm_atual := sh.bpm_sim, estado_atual := sh.estado,
    status_text := text }

/-- The shared state the button task stores for a mode. -/
def presetShared (mode : Nat) : Shared :=
  { temp_sim := (preset mode).1, bpm_sim := (preset mode).2, estado := (mode : Int) }

/-- Whether a payload has at least three bytes, the first three being `GET`. -/
def isGet (payload : List Char) : Bool :=
  decide (payload.take 3 = ['G', 'E', 'T'])

/-- A complete page in the words of the specification: headers and prologue,
the two readings as text, one status paragraph with a class and a text, and
the closing tags; nothing is cut. -/
def completePage (tempText bpmText cls text : List Char) : List Char :=
  HTML_PROLOGUE.data ++ tempText ++ " &deg;C</p>".data ++
    "<p>Batimentos: ".data ++ bpmText ++ " bpm</p>".data ++
    "<p class=\x27status ".data ++ cls ++ "\x27>Status: ".data ++ text ++ "</p>".data ++
    "</div></body></html>".data

/-- The temperature of a mode's preset with one decimal. -/
def presetTempText (mode : Nat) : List Char :=
  match mode with
  | 0 => "25.0".data
  | 1 => "25.0".data
  | _ => "38.5".data

/-- The heart rate of a mode's preset with no decimals. -/
def presetBpmText (mode : Nat) : List Char :=
  match mode with
  | 0 => "70".data
  | 2 => "70".data
  | _ => "120".data

/-- The alert level of a mode's preset. -/
def presetLevel (mode : Nat) : AlertLevel :=
  match mode with
  | 0 => AlertLevel.normal
  | 1 => AlertLevel.warning
  | 2 => AlertLevel.warning
  | _ => AlertLevel.critical

/-- The status text shown for a mode's preset. -/
def presetStatusText (mode : Nat) : List Char :=
  match mode with
  | 0 => "Normal".data
  | 1 => "Alerta Cardiaco".data
  | 2 => "Alerta Temperatura".data
  | _ => "CRiTICO!".data

/-- The complete page of a mode's preset. -/
def presetPage (mode : Nat) : List Char :=
  completePage (presetTempText mode) (presetBpmText mode) (presetLevel mode).cssClass
    (presetStatusText mode)

/-- The status paragraph of a mode's preset. -/
def presetStatusParagraph (mode : Nat) : List Char :=
  "<p class=\x27status ".data ++ (presetLevel mode).cssClass ++ "\x27>Status: ".data ++
    presetStatusText mode ++ "</p>".data

/-- The response headers. -/
def HTTP_HEADERS : List Char :=
  "HTTP/1.1 200 OK\r\nContent-Type: text/html\r\nConnection: close\r\n\r\n".data

/-! # Properties -/

set_option maxRecDepth 100000

/-! ## Alert classification (C1, C7) -/

/-- C1: for every reading pair and every mode in 0..3, the status paragraph
built by `tcp_server_recv` carries the CSS class of the level `led_alert_task`
derives, and that level is critical iff both comparisons `temperature > 38.0`
and `heartRate > 90` hold, warning iff exactly one holds, normal iff neither
holds. -/
theorem alert_level_agrees (t h : CFloat) (e : Int) (junk text : List Char)
    (hmode : 0 ≤ e ∧ e ≤ 3) :
    status_html ⟨t, h, e, junk⟩ text =
        snprintf 100 ("<p class=\x27status ".data ++ (led_alert_level t h).cssClass ++
          "\x27>Status: ".data ++ text ++ "</p>".data)
      ∧ (led_alert_level t h = AlertLevel.critical ↔
          (t.gt TEMPERATURA_SIRS = true ∧ h.gt BPM_SIRS = true))
      ∧ (led_alert_level t h = AlertLevel.warning ↔
          ((t.gt TEMPERATURA_SIRS = true ∧ h.gt BPM_SIRS = false) ∨
           (t.gt TEMPERATURA_SIRS = false ∧ h.gt BPM_SIRS = true)))
      ∧ (led_alert_level t h = AlertLevel.normal ↔
          (t.gt TEMPERATURA_SIRS = false ∧ h.gt BPM_SIRS = false)) := by
  have hne : e ≠ -1 := by omega
  unfold status_html led_alert_level
  simp only []
  cases t.gt TEMPERATURA_SIRS <;> cases h.gt BPM_SIRS <;>
    simp [hne, AlertLevel.cssClass]

/-- Witness of C1 at the preset (38.5, 120.0) in mode 3. -/
theorem alert_level_agrees_witness :
    ((0 : Int) ≤ 3 ∧ (3 : Int) ≤ 3)
      ∧ status_html ⟨TEMPERATURA_ALTA, BPM_ALTO, 3, []⟩ "CRiTICO!".data =
        snprintf 100 ("<p class=\x27status ".data ++
          (led_alert_level TEMPERATURA_ALTA BPM_ALTO).cssClass ++
          "\x27>Status: ".data ++ "CRiTICO!".data ++ "</p>".data)
      ∧ (led_alert_level TEMPERATURA_ALTA BPM_ALTO = AlertLevel.critical ↔
          (TEMPERATURA_ALTA.gt TEMPERATURA_SIRS = true ∧ BPM_ALTO.gt BPM_SIRS = true)) :=
  ⟨by decide,
   (alert_level_agrees TEMPERATURA_ALTA BPM_ALTO 3 [] "CRiTICO!".data (by decide)).1,
   (alert_level_agrees TEMPERATURA_ALTA BPM_ALTO 3 [] "CRiTICO!".data (by decide)).2.1⟩

/-- C7: one iteration of `led_alert_task` that obtains the readings `(t, h)`
leaves (red, green, onboard) at (255, 0, on) for the critical level, at
(255, 127, on) for the warning level and at (0, 0, off) for the normal level. -/
theorem led_outputs_by_level (t h : CFloat) (e : Int) (locals : CFloat × CFloat) (hw : Leds) :
    (led_alert_task ⟨t, h, e⟩ true locals hw).2 =
      match led_alert_level t h with
      | AlertLevel.critical => { red := 255, green := 0, onboard := true }
      | AlertLevel.warning => { red := 255, green := 127, onboard := true }
      | AlertLevel.normal => { red := 0, green := 0, onboard := false } := by
  unfold led_alert_task led_alert_actuate led_alert_level
  cases ha : t.gt TEMPERATURA_SIRS <;> cases hb : h.gt BPM_SIRS <;>
    simp [ha, hb, cyw43_arch_gpio_put, pwm_set_gpio_level, LED_RED_PIN, LED_GREEN_PIN,
      PWM_WRAP_VALUE]

/-! ## Mode cycling (C2) -/

theorem button_task_shared (deb : Nat) (s : ButtonSys) (p : Poll) :
    (button_task deb s p).shared =
      if edgeAccepted deb s p && p.take then
        (button_critical_section { s with last_press_time := p.tick2 % TICK_MOD }).shared
      else s.shared := by
  unfold button_task edgeAccepted
  cases fallingEdge s p <;> cases debounceOk deb s p <;> cases p.take <;> simp

theorem critical_section_preset (s : ButtonSys) (k : Nat) (hk : k < 4)
    (hs : s.shared = presetShared k) :
    (button_critical_section s).shared = presetShared ((k + 1) % 4) := by
  unfold button_critical_section
  rw [hs]
  interval_cases k <;> rfl

theorem button_run_preset (deb : Nat) (ps : List Poll) :
    ∀ (s : ButtonSys) (k : Nat), k < 4 → s.shared = presetShared k →
      (button_run deb s ps).shared = presetShared ((k + acceptedCount deb s ps) % 4) := by
  induction ps with
  | nil =>
      intro s k hk hs
      simp [button_run, acceptedCount, Nat.mod_eq_of_lt hk, hs]
  | cons p ps ih =>
      intro s k hk hs
      have hstep := button_task_shared deb s p
      show (button_run deb (button_task deb s p) ps).shared = _
      by_cases hacc : (edgeAccepted deb s p && p.take) = true
      · rw [if_pos hacc] at hstep
        have h1 := critical_section_preset
          { s with last_press_time := p.tick2 % TICK_MOD } k hk hs
        rw [h1] at hstep
        rw [ih _ ((k + 1) % 4) (Nat.mod_lt _ (by norm_num)) hstep]
        simp only [acceptedCount, hacc, if_true]
        congr 1
        omega
      · rw [if_neg hacc] at hstep
        rw [ih _ k hk (hstep.trans hs)]
        simp only [acceptedCount, hacc]
        congr 1
        simp

/-- C2: from the initial state, after a run of `button_task` in which `n` edges
were accepted, `estado` is `n mod 4`, stays within 0..3, and
`(temp_sim, bpm_sim)` is the preset of that mode: 0 gives (25.0, 70.0), 1 gives
(25.0, 120.0), 2 gives (38.5, 70.0), 3 gives (38.5, 120.0). -/
theorem mode_follows_cycle (deb : Nat) (ps : List Poll) :
    (button_run deb ButtonSys.init ps).shared.estado =
        ((acceptedCount deb ButtonSys.init ps % 4 : Nat) : Int)
      ∧ ((button_run deb ButtonSys.init ps).shared.temp_sim,
          (button_run deb ButtonSys.init ps).shared.bpm_sim) =
        preset (acceptedCount deb ButtonSys.init ps % 4)
      ∧ 0 ≤ (button_run deb ButtonSys.init ps).shared.estado
      ∧ (button_run deb ButtonSys.init ps).shared.estado ≤ 3
      ∧ preset 0 = (CFloat.ofNat 25, CFloat.ofNat 70)
      ∧ preset 1 = (CFloat.ofNat 25, CFloat.ofNat 120)
      ∧ preset 2 = (CFloat.ofHalves 77, CFloat.ofNat 70)
      ∧ preset 3 = (CFloat.ofHalves 77, CFloat.ofNat 120) := by
  have h := button_run_preset deb ps ButtonSys.init 0 (by norm_num) rfl
  rw [Nat.zero_add] at h
  have hlt : acceptedCount deb ButtonSys.init ps % 4 < 4 := Nat.mod_lt _ (by norm_num)
  rw [h]
  refine ⟨rfl, rfl, ?_, ?_, rfl, rfl, rfl, rfl⟩
  · simp only [presetShared]
    omega
  · simp only [presetShared]
    omega

/-! ## Debounce and edge detection (C3, C4) -/

theorem button_run_snoc (deb : Nat) (s : ButtonSys) (ps : List Poll) (p : Poll) :
    button_run deb s (ps ++ [p]) = button_task deb (button_run deb s ps) p := by
  simp [button_run, List.foldl_append]

theorem button_run_append (deb : Nat) (s : ButtonSys) (ps qs : List Poll) :
    button_run deb s (ps ++ qs) = button_run deb (button_run deb s ps) qs := by
  simp [button_run, List.foldl_append]

theorem critical_section_locals (s : ButtonSys) :
    (button_critical_section s).last_press_time = s.last_press_time
      ∧ (button_critical_section s).last_button_state = s.last_button_state := by
  unfold button_critical_section
  simp only []
  split_ifs <;> simp

theorem button_task_last_button_state (deb : Nat) (s : ButtonSys) (p : Poll) :
    (button_task deb s p).last_button_state = p.level := by
  simp [button_task]

theorem button_task_last_press_time (deb : Nat) (s : ButtonSys) (p : Poll) :
    (button_task deb s p).last_press_time =
      if edgeAccepted deb s p then p.tick2 % TICK_MOD else s.last_press_time := by
  unfold button_task edgeAccepted
  cases fallingEdge s p <;> cases debounceOk deb s p <;> cases p.take <;>
    simp [(critical_section_locals _).1]

theorem button_task_console (deb : Nat) (s : ButtonSys) (p : Poll)
    (h : (edgeAccepted deb s p && p.take) = false) :
    (button_task deb s p).console = s.console := by
  unfold button_task
  unfold edgeAccepted at h
  revert h
  cases fallingEdge s p <;> cases debounceOk deb s p <;> cases p.take <;> simp

theorem button_run_last_button_state (deb : Nat) (pre : List Poll) :
    (button_run deb ButtonSys.init pre).last_button_state = prevLevel pre := by
  rcases List.eq_nil_or_concat pre with h | ⟨l, q, h⟩
  · subst h
    rfl
  · subst h
    rw [List.concat_eq_append, button_run_snoc, button_task_last_button_state]
    simp [prevLevel]

theorem button_run_last_press_time (deb : Nat) (ps : List Poll) :
    ∀ s : ButtonSys,
      (button_run deb s ps).last_press_time = s.last_press_time
        ∨ ∃ r ∈ ps, (button_run deb s ps).last_press_time = r.tick2 % TICK_MOD := by
  induction ps with
  | nil => intro s; left; rfl
  | cons p ps ih =>
      intro s
      show (button_run deb (button_task deb s p) ps).last_press_time = _ ∨ _
      rcases ih (button_task deb s p) with h | ⟨r, hr, h⟩
      · have hstep := button_task_last_press_time deb s p
        by_cases hacc : edgeAccepted deb s p = true
        · right
          rw [if_pos hacc] at hstep
          exact ⟨p, List.mem_cons_self _ _, h.trans hstep⟩
        · left
          rw [if_neg hacc] at hstep
          exact h.trans hstep
      · right
        exact ⟨r, List.mem_cons_of_mem _ hr, h⟩

theorem edgeAccepted_gap (s : ButtonSys) (q : Poll)
    (hle : s.last_press_time ≤ q.tick1) (hq : q.tick1 < TICK_MOD)
    (hacc : edgeAccepted 250 s q = true) :
    s.last_press_time + 250 < q.tick1 := by
  unfold edgeAccepted debounceOk tickSub at hacc
  simp only [Bool.and_eq_true, decide_eq_true_eq] at hacc
  have h := hacc.2
  unfold TICK_MOD at h hq
  have hb : s.last_press_time % 2 ^ 32 = s.last_press_time :=
    Nat.mod_eq_of_lt (lt_of_le_of_lt hle hq)
  rw [hb] at h
  norm_num at h hq
  omega

/-- C3: with 1 tick = 1 ms and a tick counter that neither goes back nor wraps,
if `button_task` accepts an edge at poll `p` then a later poll `q` that accepts
an edge is at least 250 ms after `p`, and a poll `q` less than 250 ms after `p`
accepts nothing: `estado`, `temp_sim`, `bpm_sim` (and the debounce timestamp and
the console) are as before `q`. -/
theorem debounce_separation (pre mid : List Poll) (p q : Poll)
    (hord : TicksOrdered (pre ++ p :: mid ++ [q]))
    (hp : edgeAccepted 250 (button_run 250 ButtonSys.init pre) p = true) :
    (edgeAccepted 250 (button_run 250 ButtonSys.init (pre ++ p :: mid)) q = true →
        p.tick1 + 250 ≤ q.tick1)
      ∧ (q.tick1 < p.tick1 + 250 →
          (button_run 250 ButtonSys.init (pre ++ p :: mid ++ [q])).shared =
              (button_run 250 ButtonSys.init (pre ++ p :: mid)).shared
            ∧ (button_run 250 ButtonSys.init (pre ++ p :: mid ++ [q])).last_press_time =
              (button_run 250 ButtonSys.init (pre ++ p :: mid)).last_press_time
            ∧ (button_run 250 ButtonSys.init (pre ++ p :: mid ++ [q])).console =
              (button_run 250 ButtonSys.init (pre ++ p :: mid)).console) := by
  obtain ⟨hpw, hbd⟩ := hord
  simp only [tickReads, List.flatMap_append, List.flatMap_cons, List.flatMap_nil,
    List.pairwise_append, List.pairwise_cons, List.mem_append, List.mem_cons,
    List.mem_flatMap, List.append_nil, List.cons_append, List.nil_append] at hpw hbd
  have hp12 : p.tick1 ≤ p.tick2 := hpw.1.2.1.1 p.tick2 (Or.inl rfl)
  have hmid_lo : ∀ r ∈ mid, p.tick2 ≤ r.tick2 := fun r hr =>
    hpw.1.2.1.2.1 r.tick2 ⟨r, hr, Or.inr (Or.inl rfl)⟩
  have hpq : p.tick2 ≤ q.tick1 :=
    hpw.2.2 p.tick2 (Or.inr (Or.inr (Or.inl rfl))) q.tick1 (Or.inl rfl)
  have hmid_hi : ∀ r ∈ mid, r.tick2 ≤ q.tick1 := fun r hr =>
    hpw.2.2 r.tick2 (Or.inr (Or.inr (Or.inr ⟨r, hr, Or.inr (Or.inl rfl)⟩))) q.tick1
      (Or.inl rfl)
  have hq_bd : q.tick1 < TICK_MOD := hbd q.tick1 (Or.inr (Or.inl rfl))
  have hsplit : button_run 250 ButtonSys.init (pre ++ p :: mid) =
      button_run 250 (button_task 250 (button_run 250 ButtonSys.init pre) p) mid := by
    rw [button_run_append]
    rfl
  have hsnoc : button_run 250 ButtonSys.init (pre ++ p :: mid ++ [q]) =
      button_task 250 (button_run 250 ButtonSys.init (pre ++ p :: mid)) q := by
    rw [← button_run_snoc]
  have hlast_p : (button_task 250 (button_run 250 ButtonSys.init pre) p).last_press_time =
      p.tick2 := by
    rw [button_task_last_press_time, if_pos hp]
    exact Nat.mod_eq_of_lt (lt_of_le_of_lt hpq hq_bd)
  have hlast : p.tick2 ≤ (button_run 250 ButtonSys.init (pre ++ p :: mid)).last_press_time
      ∧ (button_run 250 ButtonSys.init (pre ++ p :: mid)).last_press_time ≤ q.tick1 := by
    rw [hsplit]
    rcases button_run_last_press_time 250 mid
      (button_task 250 (button_run 250 ButtonSys.init pre) p) with h | ⟨r, hr, h⟩
    · rw [h, hlast_p]
      exact ⟨le_refl _, hpq⟩
    · rw [h, Nat.mod_eq_of_lt (lt_of_le_of_lt (hmid_hi r hr) hq_bd)]
      exact ⟨hmid_lo r hr, hmid_hi r hr⟩
  have key : edgeAccepted 250 (button_run 250 ButtonSys.init (pre ++ p :: mid)) q = true →
      p.tick1 + 250 < q.tick1 := by
    intro hq
    have := edgeAccepted_gap _ q hlast.2 hq_bd hq
    omega
  refine ⟨fun hq => le_of_lt (key hq), fun hnear => ?_⟩
  have hrej : edgeAccepted 250 (button_run 250 ButtonSys.init (pre ++ p :: mid)) q = false := by
    cases hacc : edgeAccepted 250 (button_run 250 ButtonSys.init (pre ++ p :: mid)) q
    · rfl
    · have := key hacc
      omega
  rw [hsnoc]
  refine ⟨?_, ?_, ?_⟩
  · rw [button_task_shared, hrej]
    simp
  · rw [button_task_last_press_time, hrej]
    simp
  · exact button_task_console _ _ _ (by rw [hrej]; rfl)

/-- Witness of C3: an edge accepted at tick 300, a release at tick 350 and a
second edge at tick 400, which is dropped. -/
theorem debounce_separation_witness :
    TicksOrdered ([] ++ (⟨false, 300, 300, true⟩ : Poll) ::
        [(⟨true, 350, 350, true⟩ : Poll)] ++ [(⟨false, 400, 400, true⟩ : Poll)])
      ∧ edgeAccepted 250 (button_run 250 ButtonSys.init []) ⟨false, 300, 300, true⟩ = true
      ∧ (button_run 250 ButtonSys.init ([] ++ (⟨false, 300, 300, true⟩ : Poll) ::
          [(⟨true, 350, 350, true⟩ : Poll)] ++ [(⟨false, 400, 400, true⟩ : Poll)])).shared =
        (button_run 250 ButtonSys.init ([] ++ (⟨false, 300, 300, true⟩ : Poll) ::
          [(⟨true, 350, 350, true⟩ : Poll)])).shared :=
  have hord : TicksOrdered ([] ++ (⟨false, 300, 300, true⟩ : Poll) ::
        [(⟨true, 350, 350, true⟩ : Poll)] ++ [(⟨false, 400, 400, true⟩ : Poll)]) := by
    simp [TicksOrdered, tickReads, TICK_MOD]
  have hp : edgeAccepted 250 (button_run 250 ButtonSys.init [])
      ⟨false, 300, 300, true⟩ = true := by decide
  ⟨hord, hp,
    ((debounce_separation [] [⟨true, 350, 350, true⟩] ⟨false, 300, 300, true⟩
      ⟨false, 400, 400, true⟩ hord hp).2 (by decide)).1⟩

/-- C4: a poll of `button_task` whose sample is released (high), or whose
previous sample was pressed (low), leaves `estado`, `temp_sim`, `bpm_sim` and
the console unchanged; the sample before the first poll counts as released.
So the shared state changes only at a falling edge, whatever the tick counts
and however long the button is held. -/
theorem no_change_without_falling_edge (deb : Nat) (pre : List Poll) (p : Poll)
    (hlevel : p.level = true ∨ prevLevel pre = false) :
    (button_run deb ButtonSys.init (pre ++ [p])).shared =
        (button_run deb ButtonSys.init pre).shared
      ∧ (button_run deb ButtonSys.init (pre ++ [p])).console =
        (button_run deb ButtonSys.init pre).console := by
  have hedge : edgeAccepted deb (button_run deb ButtonSys.init pre) p = false := by
    unfold edgeAccepted fallingEdge
    rw [button_run_last_button_state]
    rcases hlevel with h | h <;> simp [h]
  rw [button_run_snoc]
  refine ⟨?_, ?_⟩
  · rw [button_task_shared, hedge]
    simp
  · exact button_task_console _ _ _ (by rw [hedge]; rfl)

/-- Witness of C4: the button is pressed at tick 100 (an edge that debounce
drops) and is still held at tick 1000. -/
theorem no_change_without_falling_edge_witness :
    prevLevel [(⟨false, 100, 100, true⟩ : Poll)] = false
      ∧ (button_run 250 ButtonSys.init
          ([(⟨false, 100, 100, true⟩ : Poll)] ++ [(⟨false, 1000, 1000, true⟩ : Poll)])).shared =
        (button_run 250 ButtonSys.init [(⟨false, 100, 100, true⟩ : Poll)]).shared :=
  ⟨by decide,
   (no_change_without_falling_edge 250 [⟨false, 100, 100, true⟩] ⟨false, 1000, 1000, true⟩
      (Or.inr (by decide))).1⟩

/-! ## The rendered page (C5) -/

theorem snprintf_fits (size : Nat) (s : List Char) (h : s.length ≤ size - 1) :
    snprintf size s = s :=
  List.take_of_length_le h

theorem strncat_fits (dest src : List Char) (n : Nat) (h : src.length ≤ n) :
    strncat dest src n = dest ++ src := by
  unfold strncat
  rw [List.take_of_length_le h]

/-- When the complete text is at most 1023 characters long, nothing is cut by
`snprintf` or `strncat` and `render_page` produces the complete text. -/
theorem render_page_fits (l : StackLocals) (tempText bpmText cls text : List Char)
    (hT : fmtFixed 1 l.temp_atual = tempText) (hB : fmtFixed 0 l.bpm_atual = bpmText)
    (htext : status_text l = text)
    (hhtml : status_html l text =
      "<p class=\x27status ".data ++ cls ++ "\x27>Status: ".data ++ text ++ "</p>".data)
    (hlen : (completePage tempText bpmText cls text).length ≤ 1023) :
    render_page l = completePage tempText bpmText cls text := by
  unfold render_page html_head
  simp only [htext, hhtml, hT, hB]
  unfold completePage at hlen ⊢
  simp only [List.length_append] at hlen
  rw [snprintf_fits _ _ (by simp only [List.length_append]; omega)]
  have h1 := strncat_fits
    (HTML_PROLOGUE.data ++ tempText ++ " &deg;C</p>".data ++ "<p>Batimentos: ".data ++
      bpmText ++ " bpm</p>".data)
    ("<p class=\x27status ".data ++ cls ++ "\x27>Status: ".data ++ text ++ "</p>".data)
    (1024 - (HTML_PROLOGUE.data ++ tempText ++ " &deg;C</p>".data ++ "<p>Batimentos: ".data ++
      bpmText ++ " bpm</p>".data).length - 1)
    (by simp only [List.length_append]; omega)
  rw [h1]
  rw [strncat_fits _ _ _ (by simp only [List.length_append]; omega)]
  simp only [List.append_assoc]

theorem render_page_preset (k : Nat) (hk : k < 4) (junk : List Char) :
    render_page (StackLocals.ofShared (presetShared k) junk) =
      completePage (presetTempText k) (presetBpmText k) (presetLevel k).cssClass
        (presetStatusText k) := by
  interval_cases k
  all_goals
    apply render_page_fits
    · rfl
    · rfl
    · rfl
    · rfl
    · decide

/-! ## The receive callback (C6, C9) -/

theorem char_eq_of_toNat_eq (a b : Char) (h : a.toNat = b.toNat) : a = b := by
  rw [← Char.ofNat_toNat a, ← Char.ofNat_toNat b, h]

theorem strncmp_head (a b : Char) (as bs : List Char) (n : Nat) (hb : b.toNat ≠ 0) :
    strncmp (a :: as) (b :: bs) (n + 1) = 0 ↔ a = b ∧ strncmp as bs n = 0 := by
  simp only [strncmp]
  by_cases hab : a = b
  · subst hab
    simp [hb]
  · have hne : a.toNat ≠ b.toNat := fun h => hab (char_eq_of_toNat_eq a b h)
    simp only [hab, if_false, false_and, iff_false]
    omega

theorem get_test_iff (payload : List Char) :
    (3 ≤ payload.length ∧ strncmp payload "GET".data 3 = 0) ↔ isGet payload = true := by
  show (3 ≤ payload.length ∧ strncmp payload ['G', 'E', 'T'] 3 = 0) ↔ _
  unfold isGet
  rw [decide_eq_true_eq]
  match payload with
  | [] => simp
  | [_] => simp
  | [_, _] => simp
  | a :: b :: c :: rest =>
      rw [strncmp_head _ _ _ _ _ (by decide), strncmp_head _ _ _ _ _ (by decide),
        strncmp_head _ _ _ _ _ (by decide)]
      simp [strncmp]

theorem tcp_server_recv_get (tpcb : Nat) (payload : List Char) (err : Int) (sh : Shared)
    (take : Bool) (stack : StackLocals) (write_err : Int)
    (herr : err = ERR_OK ∨ err = ERR_ABRT) (hget : isGet payload = true) :
    tcp_server_recv tpcb (some payload) err sh take stack write_err =
      ([Action.printf "HTML enviado:\n%s\n",
        Action.tcp_write tpcb (render_page (read_snapshot sh take stack))] ++
        (if write_err ≠ ERR_OK then
          [Action.printf "Erro ao escrever para TCP: %d\n",
           Action.tcp_close tpcb, Action.tcp_recv_null tpcb]
         else [Action.tcp_output tpcb]) ++ [Action.pbuf_free], ERR_OK) := by
  have hg := (get_test_iff payload).mpr hget
  have hnerr : ¬ (err ≠ ERR_OK ∧ err ≠ ERR_ABRT) := by
    rcases herr with h | h <;> simp [h]
  unfold tcp_server_recv
  rw [if_neg hnerr]
  simp only [if_pos hg]

theorem tcp_server_recv_other (tpcb : Nat) (payload : List Char) (err : Int) (sh : Shared)
    (take : Bool) (stack : StackLocals) (write_err : Int)
    (herr : err = ERR_OK ∨ err = ERR_ABRT) (hget : isGet payload = false) :
    tcp_server_recv tpcb (some payload) err sh take stack write_err =
      ([Action.pbuf_free], ERR_OK) := by
  have hg : ¬ (3 ≤ payload.length ∧ strncmp payload "GET".data 3 = 0) := by
    rw [get_test_iff, hget]
    simp
  have hnerr : ¬ (err ≠ ERR_OK ∧ err ≠ ERR_ABRT) := by
    rcases herr with h | h <;> simp [h]
  unfold tcp_server_recv
  rw [if_neg hnerr]
  simp only [if_neg hg]
  rfl

theorem tcp_server_recv_preset (k : Nat) (hk : k < 4) (tpcb : Nat) (rest : List Char)
    (stack : StackLocals) (write_err : Int) :
    Action.tcp_write tpcb (presetPage k) ∈
      (tcp_server_recv tpcb (some ('G' :: 'E' :: 'T' :: rest)) ERR_OK (presetShared k) true
        stack write_err).1 := by
  rw [tcp_server_recv_get _ _ _ _ _ _ _ (Or.inl rfl) (by simp [isGet])]
  have hsnap : read_snapshot (presetShared k) true stack =
      StackLocals.ofShared (presetShared k) stack.status_text := rfl
  rw [hsnap, render_page_preset k hk]
  simp [presetPage]

/-- C5: for each of the four presets, the response `tcp_server_recv` writes for
a GET (mutex obtained) is the complete page, at most 1023 characters long: it
starts with the 200 OK headers, contains the temperature with one decimal and
the heart rate with no decimals, contains exactly one status paragraph, the one
whose class and text are those of the preset's alert level, and ends with the
closing tags.  Mode 3 gives 38.5, 120 and critical / CRiTICO!, mode 0 gives
25.0, 70 and normal / Normal, mode 1 gives warning / Alerta Cardiaco. -/
theorem preset_page_complete (k : Fin 4) (tpcb : Nat) (rest : List Char)
    (stack : StackLocals) (write_err : Int) :
    Action.tcp_write tpcb (presetPage k) ∈
        (tcp_server_recv tpcb (some ('G' :: 'E' :: 'T' :: rest)) ERR_OK (presetShared k) true
          stack write_err).1
      ∧ (presetPage k).length ≤ 1023
      ∧ startsWith HTTP_HEADERS (presetPage k) = true
      ∧ containsSub ("<p>Temperatura: ".data ++ presetTempText k ++ " &deg;C</p>".data)
          (presetPage k) = true
      ∧ containsSub ("<p>Batimentos: ".data ++ presetBpmText k ++ " bpm</p>".data)
          (presetPage k) = true
      ∧ countSub "<p class=\x27status ".data (presetPage k) = 1
      ∧ containsSub (presetStatusParagraph k) (presetPage k) = true
      ∧ endsWith "</div></body></html>".data (presetPage k) = true
      ∧ presetLevel k = led_alert_level (preset k).1 (preset k).2
      ∧ (presetTempText 3, presetBpmText 3, presetLevel 3, presetStatusText 3) =
          ("38.5".data, "120".data, AlertLevel.critical, "CRiTICO!".data)
      ∧ (presetTempText 0, presetBpmText 0, presetLevel 0, presetStatusText 0) =
          ("25.0".data, "70".data, AlertLevel.normal, "Normal".data)
      ∧ (presetLevel 1, presetStatusText 1) = (AlertLevel.warning, "Alerta Cardiaco".data) := by
  refine ⟨tcp_server_recv_preset k.val k.isLt tpcb rest stack write_err, ?_, ?_, ?_, ?_, ?_, ?_,
    ?_, ?_, rfl, rfl, rfl⟩
  · fin_cases k <;> decide
  · fin_cases k <;> decide
  · fin_cases k <;> decide
  · fin_cases k <;> decide
  · fin_cases k <;> decide
  · fin_cases k <;> decide
  · fin_cases k <;> decide
  · fin_cases k <;> decide

/-- C6: for a chunk delivered with `ERR_OK`, `tcp_server_recv` writes a page iff
the chunk has at least 3 bytes and starts with `GET`; the page is the rendering
of the snapshot; for any other chunk the only call made is `pbuf_free` (nothing
written, connection not closed, receive handler kept) and `ERR_OK` is returned. -/
theorem page_sent_iff_get (tpcb : Nat) (payload : List Char) (sh : Shared) (take : Bool)
    (stack : StackLocals) (write_err : Int) :
    ((∃ data, Action.tcp_write tpcb data ∈
          (tcp_server_recv tpcb (some payload) ERR_OK sh take stack write_err).1) ↔
        (3 ≤ payload.length ∧ payload.take 3 = ['G', 'E', 'T']))
      ∧ ((3 ≤ payload.length ∧ payload.take 3 = ['G', 'E', 'T']) →
          Action.tcp_write tpcb (render_page (read_snapshot sh take stack)) ∈
            (tcp_server_recv tpcb (some payload) ERR_OK sh take stack write_err).1)
      ∧ (¬ (3 ≤ payload.length ∧ payload.take 3 = ['G', 'E', 'T']) →
          tcp_server_recv tpcb (some payload) ERR_OK sh take stack write_err =
            ([Action.pbuf_free], ERR_OK)) := by
  have hlen : payload.take 3 = ['G', 'E', 'T'] → 3 ≤ payload.length := by
    intro h
    have := congrArg List.length h
    simp only [List.length_take, List.length_cons, List.length_nil] at this
    omega
  cases hget : isGet payload
  · have hres := tcp_server_recv_other tpcb payload ERR_OK sh take stack write_err
      (Or.inl rfl) hget
    have hno : ¬ (3 ≤ payload.length ∧ payload.take 3 = ['G', 'E', 'T']) := by
      intro h
      simp [isGet, h.2] at hget
    refine ⟨⟨?_, fun h => absurd h hno⟩, fun h => absurd h hno, fun _ => hres⟩
    rintro ⟨data, hmem⟩
    rw [hres] at hmem
    simp at hmem
  · have hres := tcp_server_recv_get tpcb payload ERR_OK sh take stack write_err
      (Or.inl rfl) hget
    have hyes : 3 ≤ payload.length ∧ payload.take 3 = ['G', 'E', 'T'] := by
      have h3 : payload.take 3 = ['G', 'E', 'T'] := by simpa [isGet] using hget
      exact ⟨hlen h3, h3⟩
    have hmem : Action.tcp_write tpcb (render_page (read_snapshot sh take stack)) ∈
        (tcp_server_recv tpcb (some payload) ERR_OK sh take stack write_err).1 := by
      rw [hres]
      simp
    exact ⟨⟨fun _ => hyes, fun _ => ⟨_, hmem⟩⟩, fun _ => hmem, fun h => absurd hyes h⟩

/-- Witness of C6: the chunk `POST /x` gets no response and the connection is
left as it is. -/
theorem page_sent_iff_get_witness :
    ¬ (3 ≤ "POST /x".data.length ∧ "POST /x".data.take 3 = ['G', 'E', 'T'])
      ∧ tcp_server_recv 1 (some "POST /x".data) ERR_OK Shared.init true
          ⟨CFloat.nan, CFloat.nan, 0, []⟩ 0 = ([Action.pbuf_free], ERR_OK) :=
  ⟨by decide,
   (page_sent_iff_get 1 "POST /x".data Shared.init true ⟨CFloat.nan, CFloat.nan, 0, []⟩ 0).2.2
     (by decide)⟩

/-- C9, as the code behaves: on a receive error other than `ERR_OK` and
`ERR_ABRT` the callback logs the error, releases the buffer if one was passed
and returns the error; it makes no call on any protocol control block, so the
connection is not closed, its receive handler stays, and the listener is
untouched. -/
theorem recv_error_only_frees (tpcb : Nat) (p : Option (List Char)) (err : Int) (sh : Shared)
    (take : Bool) (stack : StackLocals) (write_err : Int)
    (hok : err ≠ ERR_OK) (habrt : err ≠ ERR_ABRT) :
    tcp_server_recv tpcb p err sh take stack write_err =
        (Action.printf "Erro na recepção TCP: %d\n" ::
          (if p.isSome then [Action.pbuf_free] else []), err)
      ∧ ∀ pcb data,
          Action.tcp_close pcb ∉ (tcp_server_recv tpcb p err sh take stack write_err).1
            ∧ Action.tcp_recv_null pcb ∉
              (tcp_server_recv tpcb p err sh take stack write_err).1
            ∧ Action.tcp_write pcb data ∉
              (tcp_server_recv tpcb p err sh take stack write_err).1
            ∧ Action.tcp_output pcb ∉
              (tcp_server_recv tpcb p err sh take stack write_err).1 := by
  have hres : tcp_server_recv tpcb p err sh take stack write_err =
      (Action.printf "Erro na recepção TCP: %d\n" ::
        (if p.isSome then [Action.pbuf_free] else []), err) := by
    unfold tcp_server_recv
    rw [if_pos ⟨hok, habrt⟩]
    cases p <;> rfl
  refine ⟨hres, fun pcb data => ?_⟩
  rw [hres]
  cases p <;> simp

/-- Witness of C9 as amended, at `ERR_MEM` with a buffer. -/
theorem recv_error_only_frees_witness :
    ERR_MEM ≠ ERR_OK ∧ ERR_MEM ≠ ERR_ABRT
      ∧ tcp_server_recv 1 (some "GET /".data) ERR_MEM Shared.init true
          ⟨CFloat.nan, CFloat.nan, 0, []⟩ 0 =
        (Action.printf "Erro na recepção TCP: %d\n" ::
          (if (some "GET /".data).isSome then [Action.pbuf_free] else []), ERR_MEM) :=
  ⟨by decide, by decide,
   (recv_error_only_frees 1 (some "GET /".data) ERR_MEM Shared.init true
      ⟨CFloat.nan, CFloat.nan, 0, []⟩ 0 (by decide) (by decide)).1⟩

/-- C9 as stated fails: at `ERR_MEM` without a buffer the callback only logs
and returns; it neither closes connection 1 nor removes its receive handler. -/
theorem recv_error_no_teardown :
    tcp_server_recv 1 none ERR_MEM Shared.init true ⟨CFloat.nan, CFloat.nan, 0, []⟩ 0 =
        ([Action.printf "Erro na recepção TCP: %d\n"], ERR_MEM)
      ∧ Action.tcp_close 1 ∉
          (tcp_server_recv 1 none ERR_MEM Shared.init true ⟨CFloat.nan, CFloat.nan, 0, []⟩ 0).1
      ∧ Action.tcp_recv_null 1 ∉
          (tcp_server_recv 1 none ERR_MEM Shared.init true
            ⟨CFloat.nan, CFloat.nan, 0, []⟩ 0).1 := by
  decide

/-! ## Reads of uninitialised locals (C8, C10) -/

/-- C8 at a failing input: the shared state is the initial one (25.0, 70.0,
mode 0) and the wait for the mutex times out.  The page written shows the
indeterminate contents of the locals: 1234.5 and 7 for one stack, 0.0 and 0 for
another, neither a value the shared state ever had nor a fixed placeholder. -/
theorem timeout_renders_uninitialised_locals :
    (tcp_server_recv 1 (some "GET / HTTP/1.1\r\n\r\n".data) ERR_OK Shared.init false
        ⟨CFloat.ofHalves 2469, CFloat.ofNat 7, 42, []⟩ 0).1 =
      [Action.printf "HTML enviado:\n%s\n",
       Action.tcp_write 1
         (completePage "1234.5".data "7".data "warning".data "Alerta Temperatura".data),
       Action.tcp_output 1, Action.pbuf_free]
      ∧ (tcp_server_recv 1 (some "GET / HTTP/1.1\r\n\r\n".data) ERR_OK Shared.init false
          ⟨CFloat.ofNat 0, CFloat.ofNat 0, 0, []⟩ 0).1 =
        [Action.printf "HTML enviado:\n%s\n",
         Action.tcp_write 1 (completePage "0.0".data "0".data "normal".data "Normal".data),
         Action.tcp_output 1, Action.pbuf_free] := by
  have hA : render_page (read_snapshot Shared.init false
      ⟨CFloat.ofHalves 2469, CFloat.ofNat 7, 42, []⟩) =
      completePage "1234.5".data "7".data "warning".data "Alerta Temperatura".data :=
    render_page_fits _ _ _ _ _ rfl rfl rfl rfl (by decide)
  have hB : render_page (read_snapshot Shared.init false
      ⟨CFloat.ofNat 0, CFloat.ofNat 0, 0, []⟩) =
      completePage "0.0".data "0".data "normal".data "Normal".data :=
    render_page_fits _ _ _ _ _ rfl rfl rfl rfl (by decide)
  constructor
  · rw [tcp_server_recv_get _ _ _ _ _ _ _ (Or.inl rfl) (by decide), hA]
    rfl
  · rw [tcp_server_recv_get _ _ _ _ _ _ _ (Or.inl rfl) (by decide), hB]
    rfl

/-- C10 at a failing input the program can receive: the shared state is the
initial one (25.0, 70.0, mode 0), the wait for the mutex times out, and the
uninitialised locals hold 25.0, 70.0 and -1.  No branch of the first `if`
chain writes `status_text`, so the paragraph written carries the critical class
with whatever the array held: an empty text when it starts with NUL, the text
`x?1` when it holds that. -/
theorem unmatched_branch_status_text_unset :
    read_snapshot Shared.init false ⟨TEMPERATURA_NORMAL, BPM_NORMAL, -1, []⟩ =
        ⟨TEMPERATURA_NORMAL, BPM_NORMAL, -1, []⟩
      ∧ status_text (read_snapshot Shared.init false
          ⟨TEMPERATURA_NORMAL, BPM_NORMAL, -1, []⟩) = []
      ∧ status_html (read_snapshot Shared.init false ⟨TEMPERATURA_NORMAL, BPM_NORMAL, -1, []⟩)
          (status_text (read_snapshot Shared.init false
            ⟨TEMPERATURA_NORMAL, BPM_NORMAL, -1, []⟩)) =
        "<p class=\x27status critical\x27>Status: </p>".data
      ∧ (tcp_server_recv 1 (some "GET / HTTP/1.1\r\n\r\n".data) ERR_OK Shared.init false
          ⟨TEMPERATURA_NORMAL, BPM_NORMAL, -1, []⟩ 0).1 =
        [Action.printf "HTML enviado:\n%s\n",
         Action.tcp_write 1 (completePage "25.0".data "70".data "critical".data []),
         Action.tcp_output 1, Action.pbuf_free]
      ∧ (tcp_server_recv 1 (some "GET / HTTP/1.1\r\n\r\n".data) ERR_OK Shared.init false
          ⟨TEMPERATURA_NORMAL, BPM_NORMAL, -1, "x?1".data⟩ 0).1 =
        [Action.printf "HTML enviado:\n%s\n",
         Action.tcp_write 1 (completePage "25.0".data "70".data "critical".data "x?1".data),
         Action.tcp_output 1, Action.pbuf_free] := by
  have hP : render_page (read_snapshot Shared.init false
      ⟨TEMPERATURA_NORMAL, BPM_NORMAL, -1, []⟩) =
      completePage "25.0".data "70".data "critical".data [] :=
    render_page_fits _ _ _ _ _ rfl rfl rfl rfl (by decide)
  have hQ : render_page (read_snapshot Shared.init false
      ⟨TEMPERATURA_NORMAL, BPM_NORMAL, -1, "x?1".data⟩) =
      completePage "25.0".data "70".data "critical".data "x?1".data :=
    render_page_fits _ _ _ _ _ rfl rfl rfl rfl (by decide)
  refine ⟨by decide, by decide, by decide, ?_, ?_⟩
  · rw [tcp_server_recv_get _ _ _ _ _ _ _ (Or.inl rfl) (by decide), hP]
    rfl
  · rw [tcp_server_recv_get _ _ _ _ _ _ _ (Or.inl rfl) (by decide), hQ]
    rfl

end SirsMonitor
